import Mathlib

/-!
Verification of the face-recognition attendance system core against its
specification: face quality scoring, recognition-result selection,
attendance capture with cooldown, enrollment sample policy, and the
retry budget.  Numeric values are modelled over `ℚ` (exact arithmetic);
clock instants are modelled over `ℤ` (milliseconds).
-/

/-- Bounding box of a detection (the `detection.detection.box` object). -/
structure Box where
  width : ℚ
  height : ℚ
deriving DecidableEq

/-- Expression scores attached to a detection.  Each individual score is
optional: the source reads `expressions.neutral || 0`, treating a missing
score as 0. -/
structure Expressions where
  neutral : Option ℚ
  happy : Option ℚ
deriving DecidableEq

/-- The inner `detection.detection` object: bounding box and detector
confidence score. -/
structure DetectionInfo where
  box : Box
  score : ℚ
deriving DecidableEq

/-- A face detection as consumed by the engine: inner detection info,
presence of landmarks, optional expression scores, and the descriptor
vector. -/
structure Detection where
  detection : DetectionInfo
  landmarks : Bool
  expressions : Option Expressions
  descriptor : List ℚ
deriving DecidableEq

/-- Embeds `FaceRecognitionEngine.calculateFaceQuality`: weighted combination of
size quality (`min(area/40000, 1)`), landmark quality (0.8 when landmarks
are present, else 0.3), expression quality (`max(neutral, happy*0.8)` when
expression scores exist, else 0.5) and the raw detector score, with weights
0.3/0.2/0.2/0.3, clamped to [0,1].  All field accesses in the source are
total on this data model, so the `catch` fallback of 0.5 is unreachable
here. -/
def calculateFaceQuality (d : Detection) : ℚ :=
  let faceArea := d.detection.box.width * d.detection.box.height
  let sizeQuality := min (faceArea / 40000) 1
  let landmarkQuality : ℚ := if d.landmarks then 0.8 else 0.3
  let expressionQuality : ℚ :=
    match d.expressions with
    | some e => max (e.neutral.getD 0) (e.happy.getD 0 * 0.8)
    | none => 0.5
  let confidenceQuality := d.detection.score
  let overallQuality :=
    sizeQuality * 0.3 + landmarkQuality * 0.2 + expressionQuality * 0.2 +
      confidenceQuality * 0.3
  min (max overallQuality 0) 1

/-- An ideal detection: full confidence, box exactly at the reference area,
landmarks present, fully neutral expression. -/
def idealExpressions : Expressions :=
  { neutral := some 1, happy := some 0 }

/-- The ideal detection used to test the quality scorer at its claimed
maximum. -/
def idealDetection : Detection :=
  { detection := { box := { width := 200, height := 200 }, score := 1 }
    landmarks := true
    expressions := some idealExpressions
    descriptor := [] }

/-- A detection missing every optional field (no landmarks, no expression
scores), with full detector confidence and a reference-area box. -/
def bareDetection : Detection :=
  { detection := { box := { width := 200, height := 200 }, score := 1 }
    landmarks := false
    expressions := none
    descriptor := [] }

/-- Output of the external face-api `FaceMatcher.findBestMatch`: a label
(`none` models the "unknown" label, `some id` a user id parsed from the
label) and a distance. -/
structure MatchResult where
  label : Option ℤ
  distance : ℚ
deriving DecidableEq

/-- One entry of `recognizeFaces`' result list: the detection, the raw
match, confidence `1 - distance`, whether the label is a known user, the
parsed user id, and the detection's quality score. -/
structure RecogResult where
  detection : Detection
  matched : MatchResult
  confidence : ℚ
  isMatch : Bool
  userId : Option ℤ
  quality : ℚ
deriving DecidableEq

/-- Builds the per-detection result object of
`FaceRecognitionEngine.recognizeFaces`. -/
def mkRecogResult (d : Detection) (m : MatchResult) : RecogResult :=
  { detection := d
    matched := m
    confidence := 1 - m.distance
    isMatch := m.label.isSome
    userId := m.label
    quality := calculateFaceQuality d }

/-- Stable insertion (descending confidence) used to model the stable
JavaScript `Array.prototype.sort` with comparator
`(a, b) => b.confidence - a.confidence`. -/
def insertByConfidence (x : RecogResult) : List RecogResult → List RecogResult
  | [] => [x]
  | y :: ys =>
    if x.confidence < y.confidence then y :: insertByConfidence x ys
    else x :: y :: ys

/-- Stable sort by descending confidence. -/
def sortByConfidence (l : List RecogResult) : List RecogResult :=
  l.foldr insertByConfidence []

/-- Embeds `FaceRecognitionEngine.recognizeFaces`: errors when the engine is not
initialized, returns the empty list when no labeled descriptors are
loaded, and otherwise maps each detection through the external matcher
(abstracted as the function argument `findBestMatch`) and sorts the
results by descending confidence. -/
def recognizeFaces (isInitialized : Bool) (findBestMatch : List ℚ → MatchResult)
    (labeledDescriptors : List (ℤ × List (List ℚ))) (detections : List Detection) :
    Except Unit (List RecogResult) :=
  if !isInitialized then Except.error ()
  else if labeledDescriptors.length = 0 then Except.ok []
  else Except.ok (sortByConfidence
    (detections.map fun d => mkRecogResult d (findBestMatch d.descriptor)))

/-- A matcher stub that labels everything unknown at maximal distance;
used only to instantiate empty-gallery statements. -/
def unknownMatcher : List ℚ → MatchResult :=
  fun _ => { label := none, distance := 1 }

/-- Recognition threshold default of the engine
(`this.recognitionThreshold = 0.6`). -/
def recognitionThreshold : ℚ := 0.6

/-- The filter predicate of `AttendanceSystem.captureAttendance`:
`result.isMatch && result.confidence >= recognitionThreshold`. -/
def qualifies (threshold : ℚ) (r : RecogResult) : Bool :=
  r.isMatch && decide (threshold ≤ r.confidence)

/-- The best-match selection of `AttendanceSystem.captureAttendance`:
filter the results to qualifying candidates, sort them by descending
confidence with the stable JavaScript sort, and take the first element
(`[0]`, `none` when no candidate qualifies). -/
def bestMatch (threshold : ℚ) (results : List RecogResult) : Option RecogResult :=
  (sortByConfidence (results.filter (qualifies threshold))).head?

/-- First element of maximal confidence in a list (keeping the earliest
on ties); reference function used to characterize `bestMatch`. -/
def firstMax : List RecogResult → Option RecogResult
  | [] => none
  | x :: xs =>
    match firstMax xs with
    | none => some x
    | some y => if x.confidence < y.confidence then some y else some x

/-- Mutable state of `AttendanceSystem` relevant to the cooldown gate:
`this.lastRecognitionTime`, initialized to 0 in the constructor. -/
structure SysState where
  lastRecognitionTime : ℤ
deriving DecidableEq

/-- The constructor state: `this.lastRecognitionTime = 0` (the sentinel
meaning no successful recognition has happened yet). -/
def initialSysState : SysState := { lastRecognitionTime := 0 }

/-- Embeds `this.recognitionCooldown = 3000` milliseconds. -/
def recognitionCooldown : ℤ := 3000

/-- The denied-branch display value:
`Math.ceil((recognitionCooldown - (now - lastRecognitionTime)) / 1000)`,
i.e. the remaining time rounded up to whole seconds. -/
def cooldownRemainingSeconds (elapsed : ℤ) : ℤ :=
  (recognitionCooldown - elapsed + 999) / 1000

/-- Outcome of one `captureAttendance` action.  `accepted r` means the
attendance record for `r.userId` with `r.confidence` and `r.quality` was
appended to the store. -/
inductive CaptureResult where
  | noFaces
  | cooldownDenied (remainingSeconds : ℤ)
  | captureFailed
  | noResults
  | rejected
  | accepted (r : RecogResult)
deriving DecidableEq

/-- True exactly on the cooldown-denied outcome. -/
def isCooldownDenied : CaptureResult → Bool
  | CaptureResult.cooldownDenied _ => true
  | _ => false

/-- Embeds `AttendanceSystem.captureAttendance`: guard on active system and
detections, cooldown gate, recognition call (its thrown error modelled as
`Except.error`), empty-result guard, best-match selection, and attendance
recording (whose own failure is modelled by `dbOk = false`, landing in the
catch-all).  Returns the new state, the outcome and the boolean return
value of the source function.  `lastRecognitionTime` is assigned `now`
only in the success branch. -/
def captureAttendance (st : SysState) (isActive : Bool) (now : ℤ)
    (numDetections : ℕ) (recognition : Except Unit (List RecogResult))
    (dbOk : Bool) (threshold : ℚ) : SysState × CaptureResult × Bool :=
  if !isActive || numDetections == 0 then (st, CaptureResult.noFaces, false)
  else if now - st.lastRecognitionTime < recognitionCooldown then
    (st, CaptureResult.cooldownDenied
      (cooldownRemainingSeconds (now - st.lastRecognitionTime)), false)
  else
    match recognition with
    | Except.error _ => (st, CaptureResult.captureFailed, false)
    | Except.ok results =>
      if results.length == 0 then (st, CaptureResult.noResults, false)
      else
        match bestMatch threshold results with
        | some r =>
          if dbOk then
            ({ lastRecognitionTime := now }, CaptureResult.accepted r, true)
          else (st, CaptureResult.captureFailed, false)
        | none => (st, CaptureResult.rejected, false)

/-- A matched result with confidence 0.55 (distance 0.45). -/
def candidate55 : RecogResult :=
  mkRecogResult bareDetection { label := some 1, distance := 0.45 }

/-- A matched result with confidence 0.62 (distance 0.38). -/
def candidate62 : RecogResult :=
  mkRecogResult bareDetection { label := some 2, distance := 0.38 }

/-- The two-candidate example of the specification: confidences 0.55 and
0.62 against threshold 0.6. -/
def attendanceCandidates : List RecogResult := [candidate55, candidate62]

/-- One stored enrollment sample:
`{descriptor, quality, timestamp}` (the timestamp is irrelevant to every
verified property and omitted). -/
structure EnrollmentSample where
  descriptor : List ℚ
  quality : ℚ
deriving DecidableEq

/-- Mutable state of `UserManagement` relevant to enrollment:
`isEnrolling`, `enrollmentSamples` and `requiredSamples`
(set to 5 in the constructor). -/
structure EnrollState where
  isEnrolling : Bool
  enrollmentSamples : List EnrollmentSample
  requiredSamples : ℕ
deriving DecidableEq

/-- Specific issues pushed by
`FaceRecognitionEngine.validateEnrollmentQuality`. -/
inductive EnrollIssue where
  | lowDetectionConfidence
  | faceTooSmall
  | landmarksNotDetected
  | nonNeutralExpression
deriving DecidableEq

/-- Result object of `validateEnrollmentQuality`. -/
structure EnrollValidation where
  isValid : Bool
  quality : ℚ
  issues : List EnrollIssue
deriving DecidableEq

/-- Embeds `this.qualityThreshold = 0.7`. -/
def qualityThreshold : ℚ := 0.7

/-- Embeds `FaceRecognitionEngine.validateEnrollmentQuality`: valid iff the
quality reaches the threshold; below the threshold the specific issues
are collected in source order. -/
def validateEnrollmentQuality (d : Detection) : EnrollValidation :=
  let quality := calculateFaceQuality d
  { isValid := decide (qualityThreshold ≤ quality)
    quality := quality
    issues :=
      if quality < qualityThreshold then
        (if d.detection.score < 0.8 then [EnrollIssue.lowDetectionConfidence]
          else []) ++
        (if d.detection.box.width < 100 ∨ d.detection.box.height < 100 then
          [EnrollIssue.faceTooSmall] else []) ++
        (if !d.landmarks then [EnrollIssue.landmarksNotDetected] else []) ++
        (match d.expressions with
          | some e =>
            if e.neutral.getD 0 < 0.3 then [EnrollIssue.nonNeutralExpression]
            else []
          | none => [])
      else [] }

/-- Outcome of one `captureEnrollmentSample` call.  `ignored` is the
silent early return (not enrolling, or the sample list already full);
the other rejections carry the user-facing reason. -/
inductive CaptureSampleOutcome where
  | ignored
  | noFaceDetected
  | multipleFaces
  | qualityTooLow (issues : List EnrollIssue)
  | accepted
deriving DecidableEq

/-- Embeds `UserManagement.captureEnrollmentSample`: early return when not
enrolling or the sample list is full; reject on zero detections
("no face detected"), on more than one detection, or on failed quality
validation; otherwise append `{descriptor, quality}` to the sample list.
Returns the new state, the outcome and the boolean return value. -/
def captureEnrollmentSample (st : EnrollState) (detections : List Detection) :
    EnrollState × CaptureSampleOutcome × Bool :=
  if !st.isEnrolling || st.requiredSamples ≤ st.enrollmentSamples.length then
    (st, CaptureSampleOutcome.ignored, false)
  else
    match detections with
    | [] => (st, CaptureSampleOutcome.noFaceDetected, false)
    | [d] =>
      let validation := validateEnrollmentQuality d
      if !validation.isValid then
        (st, CaptureSampleOutcome.qualityTooLow validation.issues, false)
      else
        ({ st with enrollmentSamples := st.enrollmentSamples ++
            [{ descriptor := d.descriptor, quality := validation.quality }] },
          CaptureSampleOutcome.accepted, true)
    | _ :: _ :: _ => (st, CaptureSampleOutcome.multipleFaces, false)

/-- Outcome of one `completeEnrollment` call. -/
inductive CompleteOutcome where
  | insufficientSamples (needed : ℕ)
  | emailExists
  | completed
deriving DecidableEq

/-- Embeds `UserManagement.completeEnrollment`: fails (reporting how many more
samples are needed) when fewer than `requiredSamples` samples are stored;
fails on a duplicate email (modelled by the `emailDup` input); otherwise
creates the user, enrolls the descriptors, and cleans up via
`stopEnrollment` (enrolling off, sample list cleared).  Returns the new
state, the outcome, the boolean return value, and whether a user record
was created. -/
def completeEnrollment (st : EnrollState) (emailDup : Bool) :
    EnrollState × CompleteOutcome × Bool × Bool :=
  if st.enrollmentSamples.length < st.requiredSamples then
    (st, CompleteOutcome.insufficientSamples
      (st.requiredSamples - st.enrollmentSamples.length), false, false)
  else if emailDup then (st, CompleteOutcome.emailExists, false, false)
  else
    ({ st with isEnrolling := false, enrollmentSamples := [] },
      CompleteOutcome.completed, true, true)

/-- Embeds `UserManagement.startEnrollment`: fails (state unchanged) when the
engine is uninitialized, the form is invalid or the camera fails;
otherwise sets `isEnrolling` and clears the sample list. -/
def startEnrollment (st : EnrollState)
    (engineReady formValid cameraOk : Bool) : EnrollState × Bool :=
  if !engineReady then (st, false)
  else if !formValid then (st, false)
  else if !cameraOk then (st, false)
  else ({ st with isEnrolling := true, enrollmentSamples := [] }, true)

/-- A stored sample used to build concrete enrollment states. -/
def storedSample : EnrollmentSample := { descriptor := [], quality := 1 }

/-- An active enrollment session whose sample list is already full
(5 of 5). -/
def fullEnrollState : EnrollState :=
  { isEnrolling := true
    enrollmentSamples := List.replicate 5 storedSample
    requiredSamples := 5 }

/-- An active enrollment session with 4 of 5 samples. -/
def fourSampleState : EnrollState :=
  { isEnrolling := true
    enrollmentSamples := List.replicate 4 storedSample
    requiredSamples := 5 }

/-- Globals of the demo script relevant to the retry budget:
`recognitionAttempts` and `capturedImage` (modelled by its presence). -/
structure RetryState where
  recognitionAttempts : ℕ
  capturedImage : Bool
deriving DecidableEq

/-- Embeds `const MAX_ATTEMPTS = 3`. -/
def MAX_ATTEMPTS : ℕ := 3

/-- Embeds `captureImage` of the demo script: requires a running camera stream;
resets the attempt counter and (after the countdown) stores a captured
image, starting a fresh capture-to-recognize cycle. -/
def captureImage (s : RetryState) (hasStream : Bool) : RetryState :=
  if !hasStream then s
  else { recognitionAttempts := 0, capturedImage := true }

/-- Embeds `checkAttendance` of the demo script: without a captured image the
call returns immediately (no attempt is made); otherwise the attempt
counter is incremented, and then either the recognition succeeds (counter
reset to 0, image cleared), or the incremented counter has reached
`MAX_ATTEMPTS` (exhaustion: counter reset to 0, image cleared), or the
incremented counter is kept together with the image for the next retry.
The recognition outcome (a random draw in the source) is the input
`isRecognized`. -/
def checkAttendance (s : RetryState) (isRecognized : Bool) : RetryState :=
  if !s.capturedImage then s
  else
    let attempts := s.recognitionAttempts + 1
    if isRecognized then { recognitionAttempts := 0, capturedImage := false }
    else if MAX_ATTEMPTS ≤ attempts then
      { recognitionAttempts := 0, capturedImage := false }
    else { recognitionAttempts := attempts, capturedImage := true }

/-- Unfolding lemma for `calculateFaceQuality`, with the optional
expression scores exposed through `Option.elim`. -/
theorem calculateFaceQuality_eq (d : Detection) :
    calculateFaceQuality d =
      min (max (min (d.detection.box.width * d.detection.box.height / 40000) 1 * 0.3 +
        (if d.landmarks then (0.8:ℚ) else 0.3) * 0.2 +
        (d.expressions.elim (0.5:ℚ)
          (fun e => max (e.neutral.getD 0) (e.happy.getD 0 * 0.8))) * 0.2 +
        d.detection.score * 0.3) 0) 1 := by
  unfold calculateFaceQuality
  cases d.expressions <;> rfl

/-- Claim C1, counterexample: on a detection with detector confidence 1,
box area exactly the reference area 40000, landmarks present and neutral
score 1, `calculateFaceQuality` returns 24/25 = 0.96, not 1.0 — the
landmark sub-score is 0.8 even when landmarks are present, so the weighted
sum is 0.3 + 0.16 + 0.2 + 0.3 = 0.96. -/
theorem calculateFaceQuality_ideal_counterexample :
    calculateFaceQuality idealDetection = 24/25 ∧
    calculateFaceQuality idealDetection ≠ 1 := by
  constructor
  · norm_num [calculateFaceQuality, idealDetection, idealExpressions]
  · norm_num [calculateFaceQuality, idealDetection, idealExpressions]

/-- Claim C1, amended: for every detection with detector confidence 1,
box area at least the reference area 40000, landmarks present, neutral
expression score 1 (and happy score at most 1), `calculateFaceQuality`
returns exactly 24/25 = 0.96, the maximum attainable under these
conditions, because the landmark sub-score is fixed at 0.8. -/
theorem calculateFaceQuality_ideal (d : Detection)
    (hscore : d.detection.score = 1)
    (harea : 40000 ≤ d.detection.box.width * d.detection.box.height)
    (hland : d.landmarks = true)
    (e : Expressions) (hexp : d.expressions = some e)
    (hneutral : e.neutral = some 1)
    (hhappy : e.happy.getD 0 ≤ 1) :
    calculateFaceQuality d = 24/25 := by
  have hsize : min (d.detection.box.width * d.detection.box.height / 40000) 1 = 1 := by
    apply min_eq_right
    rw [le_div_iff₀ (by norm_num : (0:ℚ) < 40000)]
    linarith
  have hexpq : max ((1:ℚ)) (e.happy.getD 0 * 0.8) = 1 := by
    apply max_eq_left
    have h8 : e.happy.getD 0 * 0.8 ≤ 1 * 0.8 :=
      mul_le_mul_of_nonneg_right hhappy (by norm_num)
    linarith
  rw [calculateFaceQuality_eq, hscore, hland, hexp]
  simp only [Option.elim_some, hneutral, Option.getD_some, if_true]
  rw [hsize, hexpq]
  have hval : (1:ℚ) * 0.3 + 0.8 * 0.2 + 1 * 0.2 + 1 * 0.3 = 24/25 := by norm_num
  rw [hval, max_eq_left (by norm_num : (0:ℚ) ≤ 24/25),
    min_eq_left (by norm_num : (24:ℚ)/25 ≤ 1)]

/-- Witness for `calculateFaceQuality_ideal` at the concrete ideal
detection. -/
theorem calculateFaceQuality_ideal_witness :
    calculateFaceQuality idealDetection = 24/25 :=
  calculateFaceQuality_ideal idealDetection rfl
    (by norm_num [idealDetection]) rfl idealExpressions rfl rfl
    (by norm_num [idealExpressions])

/-- Claim C2, counterexample: on a detection missing every optional field
(landmarks absent, no expression scores) with a reference-area box and
detector score 1, `calculateFaceQuality` returns 19/25 = 0.76, not the
fixed fallback 0.5 — missing optional fields do not reach the error
fallback; they merely select the fixed sub-scores 0.3 (landmarks) and
0.5 (expression) inside the weighted sum. -/
theorem calculateFaceQuality_missing_counterexample :
    calculateFaceQuality bareDetection = 19/25 ∧
    calculateFaceQuality bareDetection ≠ 1/2 := by
  constructor
  · norm_num [calculateFaceQuality, bareDetection]
  · norm_num [calculateFaceQuality, bareDetection]

/-- Claim C2, amended: for every detection missing every optional field,
`calculateFaceQuality` never errors, returns a value in [0,1], and that
value equals 0.5 exactly when sizeQuality + detector score = 17/15 — it is
not the constant 0.5.  (The weighted sum degenerates to
0.3·sizeQuality + 0.16 + 0.3·score before clamping.) -/
theorem calculateFaceQuality_missing_optional (d : Detection)
    (hland : d.landmarks = false) (hexp : d.expressions = none) :
    (calculateFaceQuality d = 1/2 ↔
      min (d.detection.box.width * d.detection.box.height / 40000) 1 +
        d.detection.score = 17/15) ∧
    0 ≤ calculateFaceQuality d ∧ calculateFaceQuality d ≤ 1 := by
  rw [calculateFaceQuality_eq, hland, hexp]
  simp only [Option.elim_none, Bool.false_eq_true, if_false]
  set s := min (d.detection.box.width * d.detection.box.height / 40000) 1 with hs
  set c := d.detection.score with hc
  set v := s * 0.3 + 0.3 * 0.2 + 0.5 * 0.2 + c * 0.3 with hv
  refine ⟨?_, ?_, ?_⟩
  · constructor
    · intro h
      rcases le_total v 0 with hv0 | hv0
      · rw [max_eq_right hv0] at h
        rw [min_eq_left (by norm_num : (0:ℚ) ≤ 1)] at h
        norm_num at h
      · rw [max_eq_left hv0] at h
        rcases le_total v 1 with hv1 | hv1
        · rw [min_eq_left hv1] at h
          have : s + c = 17/15 := by
            rw [hv] at h
            linarith
          exact this
        · rw [min_eq_right hv1] at h
          norm_num at h
    · intro h
      have hveq : v = 1/2 := by
        rw [hv]
        linarith
      rw [hveq]
      norm_num
  · exact le_min (le_max_right _ 0) (by norm_num)
  · exact min_le_right _ 1

/-- Witness for `calculateFaceQuality_missing_optional` at the concrete
bare detection. -/
theorem calculateFaceQuality_missing_optional_witness :
    (calculateFaceQuality bareDetection = 1/2 ↔
      min (bareDetection.detection.box.width *
          bareDetection.detection.box.height / 40000) 1 +
        bareDetection.detection.score = 17/15) ∧
    0 ≤ calculateFaceQuality bareDetection ∧
      calculateFaceQuality bareDetection ≤ 1 :=
  calculateFaceQuality_missing_optional bareDetection rfl rfl

/-- Claim C3, counterexample: with an empty gallery and one input
detection, `recognizeFaces` returns the empty list — it produces no
result at all, in particular no result with `isMatch = false` and
confidence 0. -/
theorem recognizeFaces_empty_counterexample :
    recognizeFaces true unknownMatcher [] [bareDetection] = Except.ok [] ∧
    ¬ ∃ l r, recognizeFaces true unknownMatcher [] [bareDetection] = Except.ok l ∧
      r ∈ l ∧ r.isMatch = false ∧ r.confidence = 0 := by
  refine ⟨rfl, ?_⟩
  rintro ⟨l, r, h, hmem, -, -⟩
  have h0 : recognizeFaces true unknownMatcher [] [bareDetection] =
      Except.ok [] := rfl
  have hl : Except.ok (ε := Unit) ([] : List RecogResult) = Except.ok l :=
    h0.symm.trans h
  have : ([] : List RecogResult) = l := by
    injection hl
  subst this
  exact absurd hmem (List.not_mem_nil r)

/-- Claim C3, amended: for every matcher and every detection list, an
initialized engine with an empty gallery of labeled descriptors returns
`Except.ok []` (the empty result list) — it does not raise an error, and
it reports no per-detection result, matched or unknown. -/
theorem recognizeFaces_empty_gallery (findBestMatch : List ℚ → MatchResult)
    (detections : List Detection) :
    recognizeFaces true findBestMatch [] detections = Except.ok [] := by
  rfl

/-- Head of a stable descending insertion. -/
theorem insertByConfidence_head (x : RecogResult) (ys : List RecogResult) :
    (insertByConfidence x ys).head? =
      some (ys.head?.elim x fun y =>
        if x.confidence < y.confidence then y else x) := by
  cases ys with
  | nil => rfl
  | cons y ys =>
    simp only [insertByConfidence, List.head?_cons, Option.elim_some]
    split <;> simp

/-- Unfolding lemma for `firstMax` on a cons cell. -/
theorem firstMax_cons (x : RecogResult) (xs : List RecogResult) :
    firstMax (x :: xs) =
      some ((firstMax xs).elim x fun y =>
        if x.confidence < y.confidence then y else x) := by
  cases h : firstMax xs with
  | none => simp [firstMax, h]
  | some y =>
    simp only [firstMax, h, Option.elim_some]
    split <;> rfl

/-- The head of the stable descending sort is the first maximal element. -/
theorem sortByConfidence_head (l : List RecogResult) :
    (sortByConfidence l).head? = firstMax l := by
  induction l with
  | nil => rfl
  | cons x xs ih =>
    show (insertByConfidence x (sortByConfidence xs)).head? = firstMax (x :: xs)
    rw [insertByConfidence_head, ih, firstMax_cons]

/-- The function `firstMax` returns `none` exactly on the empty list. -/
theorem firstMax_eq_none_iff (l : List RecogResult) :
    firstMax l = none ↔ l = [] := by
  cases l with
  | nil => simp [firstMax]
  | cons x xs => simp [firstMax_cons]

/-- The first maximal element is a member of the list. -/
theorem firstMax_mem (l : List RecogResult) (r : RecogResult)
    (h : firstMax l = some r) : r ∈ l := by
  induction l with
  | nil => simp [firstMax] at h
  | cons x xs ih =>
    rw [firstMax_cons] at h
    cases hx : firstMax xs with
    | none =>
      rw [hx] at h
      simp only [Option.elim_none, Option.some.injEq] at h
      subst h
      exact List.mem_cons_self x xs
    | some y =>
      rw [hx] at h
      simp only [Option.elim_some, Option.some.injEq] at h
      by_cases hc : x.confidence < y.confidence
      · rw [if_pos hc] at h
        subst h
        exact List.mem_cons_of_mem x (ih hx)
      · rw [if_neg hc] at h
        subst h
        exact List.mem_cons_self x xs

/-- The first maximal element has maximal confidence. -/
theorem firstMax_ge (l : List RecogResult) :
    ∀ r : RecogResult, firstMax l = some r →
      ∀ z ∈ l, z.confidence ≤ r.confidence := by
  induction l with
  | nil =>
    intro r h
    simp [firstMax] at h
  | cons x xs ih =>
    intro r h z hz
    rw [firstMax_cons] at h
    cases hx : firstMax xs with
    | none =>
      rw [hx] at h
      simp only [Option.elim_none, Option.some.injEq] at h
      subst h
      have hxs : xs = [] := (firstMax_eq_none_iff xs).mp hx
      rcases List.mem_cons.mp hz with hz | hz
      · subst hz
        exact le_refl _
      · rw [hxs] at hz
        simp at hz
    | some y =>
      rw [hx] at h
      simp only [Option.elim_some, Option.some.injEq] at h
      by_cases hc : x.confidence < y.confidence
      · rw [if_pos hc] at h
        subst h
        rcases List.mem_cons.mp hz with hz | hz
        · subst hz
          exact le_of_lt hc
        · exact ih _ hx z hz
      · rw [if_neg hc] at h
        subst h
        rcases List.mem_cons.mp hz with hz | hz
        · subst hz
          exact le_refl _
        · exact le_trans (ih y hx z hz) (not_lt.mp hc)

/-- The first maximal element occurs before every other element of equal
confidence: everything strictly before it has strictly smaller
confidence. -/
theorem firstMax_first (l : List RecogResult) :
    ∀ r : RecogResult, firstMax l = some r →
      ∃ i : ℕ, l[i]? = some r ∧
        ∀ j : ℕ, j < i → ∀ z : RecogResult, l[j]? = some z →
          z.confidence < r.confidence := by
  induction l with
  | nil =>
    intro r h
    simp [firstMax] at h
  | cons x xs ih =>
    intro r h
    rw [firstMax_cons] at h
    cases hx : firstMax xs with
    | none =>
      rw [hx] at h
      simp only [Option.elim_none, Option.some.injEq] at h
      subst h
      exact ⟨0, by simp, fun j hj => absurd hj (Nat.not_lt_zero j)⟩
    | some y =>
      rw [hx] at h
      simp only [Option.elim_some, Option.some.injEq] at h
      by_cases hc : x.confidence < y.confidence
      · rw [if_pos hc] at h
        subst h
        obtain ⟨i, hi, hlt⟩ := ih _ hx
        refine ⟨i + 1, ?_, ?_⟩
        · rw [List.getElem?_cons_succ]
          exact hi
        · intro j hj z hz
          cases j with
          | zero =>
            rw [List.getElem?_cons_zero] at hz
            have hzx : x = z := by injection hz
            rw [← hzx]
            exact hc
          | succ k =>
            have hk : k < i := by omega
            rw [List.getElem?_cons_succ] at hz
            exact hlt k hk z hz
      · rw [if_neg hc] at h
        subst h
        exact ⟨0, by simp, fun j hj => absurd hj (Nat.not_lt_zero j)⟩

/-- The 0.55-confidence candidate does not pass threshold 0.6. -/
theorem qualifies_candidate55 : qualifies (3/5) candidate55 = false := by
  simp only [qualifies, candidate55, mkRecogResult, Option.isSome_some,
    Bool.true_and, decide_eq_false_iff_not, not_le]
  norm_num

/-- The 0.62-confidence candidate passes threshold 0.6. -/
theorem qualifies_candidate62 : qualifies (3/5) candidate62 = true := by
  simp only [qualifies, candidate62, mkRecogResult, Option.isSome_some,
    Bool.true_and, decide_eq_true_eq]
  norm_num

/-- Concrete evaluation of the best-match selection on the two-candidate
example. -/
theorem bestMatch_attendanceCandidates :
    bestMatch (3/5) attendanceCandidates = some candidate62 := by
  unfold bestMatch
  have hfil : List.filter (qualifies (3/5)) attendanceCandidates =
      [candidate62] := by
    simp [attendanceCandidates, List.filter, qualifies_candidate55,
      qualifies_candidate62]
  rw [hfil]
  rfl

/-- Claim C4: the best-match selection of `captureAttendance` returns a
candidate exactly when some result has `isMatch` and confidence at least
the threshold; any returned candidate is a qualifying member of the input
of maximal confidence, and it is the first such candidate in input order
on ties (everything before it among the qualifying candidates has strictly
smaller confidence).  When no candidate qualifies the capture action
rejects, records nothing and leaves the state unchanged; when one is
selected the action accepts exactly that candidate. -/
theorem bestMatch_selection (threshold : ℚ) (results : List RecogResult) :
    ((bestMatch threshold results).isSome ↔
      ∃ r ∈ results, qualifies threshold r = true) ∧
    (∀ r : RecogResult, bestMatch threshold results = some r →
      r ∈ results ∧ qualifies threshold r = true ∧
      (∀ z ∈ results, qualifies threshold z = true →
        z.confidence ≤ r.confidence) ∧
      ∃ i : ℕ, (results.filter (qualifies threshold))[i]? = some r ∧
        ∀ j : ℕ, j < i → ∀ z : RecogResult,
          (results.filter (qualifies threshold))[j]? = some z →
          z.confidence < r.confidence) ∧
    (∀ st : SysState, ∀ now : ℤ, ∀ n : ℕ, ∀ dbOk : Bool, n ≠ 0 →
      recognitionCooldown ≤ now - st.lastRecognitionTime →
      results.length ≠ 0 → bestMatch threshold results = none →
      captureAttendance st true now n (Except.ok results) dbOk threshold =
        (st, CaptureResult.rejected, false)) ∧
    (∀ st : SysState, ∀ now : ℤ, ∀ n : ℕ, ∀ r : RecogResult, n ≠ 0 →
      recognitionCooldown ≤ now - st.lastRecognitionTime →
      bestMatch threshold results = some r →
      captureAttendance st true now n (Except.ok results) true threshold =
        ({ lastRecognitionTime := now }, CaptureResult.accepted r, true)) := by
  have hbm : bestMatch threshold results =
      firstMax (results.filter (qualifies threshold)) := by
    unfold bestMatch
    exact sortByConfidence_head _
  refine ⟨?_, ?_, ?_, ?_⟩
  · rw [hbm]
    constructor
    · intro hs
      obtain ⟨r, hr⟩ := Option.isSome_iff_exists.mp hs
      have hmem := firstMax_mem _ _ hr
      rcases List.mem_filter.mp hmem with ⟨hrl, hq⟩
      exact ⟨r, hrl, hq⟩
    · rintro ⟨r, hrl, hq⟩
      have hmem : r ∈ results.filter (qualifies threshold) :=
        List.mem_filter.mpr ⟨hrl, hq⟩
      cases hf : firstMax (results.filter (qualifies threshold)) with
      | none =>
        rw [firstMax_eq_none_iff] at hf
        rw [hf] at hmem
        simp at hmem
      | some z => simp
  · intro r h
    rw [hbm] at h
    have hmem := firstMax_mem _ _ h
    rcases List.mem_filter.mp hmem with ⟨hrl, hq⟩
    refine ⟨hrl, hq, ?_, ?_⟩
    · intro z hz hqz
      exact firstMax_ge _ _ h z (List.mem_filter.mpr ⟨hz, hqz⟩)
    · exact firstMax_first _ _ h
  · intro st now n dbOk hn hcool hres hnone
    have hb : (!true || (n == 0)) = false := by
      simp [hn]
    have hlt : ¬ (now - st.lastRecognitionTime < recognitionCooldown) :=
      not_lt.mpr hcool
    have hr0 : (results.length == 0) = false := by
      simp [hres]
    simp [captureAttendance, hn, hb, hlt, hr0, hnone]
  · intro st now n r hn hcool hsome
    have hb : (!true || (n == 0)) = false := by
      simp [hn]
    have hlt : ¬ (now - st.lastRecognitionTime < recognitionCooldown) :=
      not_lt.mpr hcool
    have hres : results.length ≠ 0 := by
      intro h0
      rw [List.length_eq_zero] at h0
      rw [hbm, h0] at hsome
      simp [firstMax] at hsome
    have hr0 : (results.length == 0) = false := by
      simp [hres]
    simp [captureAttendance, hn, hb, hlt, hr0, hsome]

/-- Witness for `bestMatch_selection` on the specification's two-candidate
example: with confidences 0.55 and 0.62 and threshold 0.6 only the 0.62
candidate qualifies and the capture action accepts it. -/
theorem bestMatch_selection_witness :
    candidate62 ∈ attendanceCandidates ∧
    qualifies (3/5) candidate62 = true ∧
    captureAttendance initialSysState true 4000 1
      (Except.ok attendanceCandidates) true (3/5) =
      ({ lastRecognitionTime := 4000 }, CaptureResult.accepted candidate62,
        true) := by
  refine ⟨?_, ?_, ?_⟩
  · exact (((bestMatch_selection (3/5) attendanceCandidates).2.1) candidate62
      bestMatch_attendanceCandidates).1
  · exact (((bestMatch_selection (3/5) attendanceCandidates).2.1) candidate62
      bestMatch_attendanceCandidates).2.1
  · exact ((bestMatch_selection (3/5) attendanceCandidates).2.2.2)
      initialSysState 4000 1 candidate62 (by decide) (by decide)
      bestMatch_attendanceCandidates

/-- Claim C5, counterexample: with no prior success the state holds the
sentinel `lastRecognitionTime = 0`, so a capture attempt at instant 100
(less than 3000 ms after the epoch) is denied with remaining = 3 seconds,
although no success has ever been recorded — the code does not grant
unconditionally when there is no prior success. -/
theorem cooldown_counterexample :
    captureAttendance initialSysState true 100 1 (Except.ok []) true (3/5) =
      (initialSysState, CaptureResult.cooldownDenied 3, false) ∧
    isCooldownDenied (captureAttendance initialSysState true 100 1
      (Except.ok []) true (3/5)).2.1 = true := by
  constructor
  · rfl
  · rfl

/-- Claim C5, amended: the cooldown gate of `captureAttendance` grants
exactly when `now - lastRecognitionTime ≥ 3000` (with
`lastRecognitionTime = 0` standing for "no prior success", so a fresh
session is granted only from instant 3000 on); otherwise it denies with
remaining = `3000 - (now - lastRecognitionTime)` rounded up to whole
seconds (characterized by the two ceiling inequalities).  In particular,
after a success at `t0`, an attempt at `t0 + 2999` is denied with
remaining = 1 and an attempt at `t0 + 3000` is granted. -/
theorem cooldown_gate (st : SysState) (now : ℤ) (n : ℕ) (hn : n ≠ 0)
    (recognition : Except Unit (List RecogResult)) (dbOk : Bool)
    (threshold : ℚ) :
    (now - st.lastRecognitionTime < 3000 →
      captureAttendance st true now n recognition dbOk threshold =
        (st, CaptureResult.cooldownDenied
          (cooldownRemainingSeconds (now - st.lastRecognitionTime)), false)) ∧
    (∀ elapsed : ℤ, elapsed < 3000 →
      3000 - elapsed ≤ 1000 * cooldownRemainingSeconds elapsed ∧
      1000 * (cooldownRemainingSeconds elapsed - 1) < 3000 - elapsed) ∧
    (3000 ≤ now - st.lastRecognitionTime →
      isCooldownDenied
        (captureAttendance st true now n recognition dbOk threshold).2.1 =
          false) ∧
    cooldownRemainingSeconds 2999 = 1 := by
  refine ⟨?_, ?_, ?_, ?_⟩
  · intro h
    have hlt : now - st.lastRecognitionTime < recognitionCooldown := h
    simp [captureAttendance, hn, hlt]
  · intro elapsed he
    have hdm := Int.ediv_add_emod (3000 - elapsed + 999) 1000
    have hnn := Int.emod_nonneg (3000 - elapsed + 999)
      (by norm_num : (1000:ℤ) ≠ 0)
    have hub := Int.emod_lt_of_pos (3000 - elapsed + 999)
      (by norm_num : (0:ℤ) < 1000)
    unfold cooldownRemainingSeconds recognitionCooldown
    constructor
    · linarith
    · linarith
  · intro h
    have hlt : ¬ (now - st.lastRecognitionTime < recognitionCooldown) := by
      unfold recognitionCooldown
      exact not_lt.mpr h
    rcases recognition with e | results
    · simp [captureAttendance, hn, hlt, isCooldownDenied]
    · by_cases hr : results.length = 0
      · simp [captureAttendance, hn, hlt, hr, isCooldownDenied]
      · cases hbm : bestMatch threshold results with
        | none =>
          simp [captureAttendance, hn, hlt, hr, hbm, isCooldownDenied]
        | some r =>
          cases dbOk <;>
            simp [captureAttendance, hn, hlt, hr, hbm, isCooldownDenied]
  · rfl

/-- Witness for `cooldown_gate`: after a success at 100000, an attempt at
102999 is denied with remaining = 1 second, and an attempt at 103000 is
granted (not cooldown-denied). -/
theorem cooldown_gate_witness :
    captureAttendance { lastRecognitionTime := 100000 } true 102999 1
      (Except.ok []) true (3/5) =
      ({ lastRecognitionTime := 100000 },
        CaptureResult.cooldownDenied (cooldownRemainingSeconds 2999),
        false) ∧
    cooldownRemainingSeconds 2999 = 1 ∧
    isCooldownDenied (captureAttendance { lastRecognitionTime := 100000 }
      true 103000 1 (Except.ok []) true (3/5)).2.1 = false := by
  refine ⟨?_, ?_, ?_⟩
  · exact (cooldown_gate { lastRecognitionTime := 100000 } 102999 1
      (by decide) (Except.ok []) true (3/5)).1 (by decide)
  · exact (cooldown_gate { lastRecognitionTime := 100000 } 102999 1
      (by decide) (Except.ok []) true (3/5)).2.2.2
  · exact (cooldown_gate { lastRecognitionTime := 100000 } 103000 1
      (by decide) (Except.ok []) true (3/5)).2.2.1 (by decide)

/-- Claim C6: the cooldown's last-success timestamp is updated (to `now`)
exactly when the capture action returns true, which happens only in the
accepted branch; every rejected, denied or failed attempt leaves the
state — and hence the cooldown — unchanged. -/
theorem captureAttendance_lastSuccess (st : SysState) (isActive : Bool)
    (now : ℤ) (n : ℕ) (recognition : Except Unit (List RecogResult))
    (dbOk : Bool) (threshold : ℚ) :
    ((captureAttendance st isActive now n recognition dbOk threshold).2.2 =
        true →
      (captureAttendance st isActive now n recognition dbOk
          threshold).1.lastRecognitionTime = now ∧
      ∃ r : RecogResult,
        (captureAttendance st isActive now n recognition dbOk
          threshold).2.1 = CaptureResult.accepted r) ∧
    ((captureAttendance st isActive now n recognition dbOk threshold).2.2 =
        false →
      (captureAttendance st isActive now n recognition dbOk threshold).1 =
        st) := by
  by_cases hb : (!isActive || n == 0) = true
  · simp [captureAttendance, hb]
  · by_cases hc : now - st.lastRecognitionTime < recognitionCooldown
    · simp [captureAttendance, hb, hc]
    · rcases recognition with e | results
      · simp [captureAttendance, hb, hc]
      · by_cases hr : (results.length == 0) = true
        · simp [captureAttendance, hb, hc, hr]
        · cases hbm : bestMatch threshold results with
          | none => simp [captureAttendance, hb, hc, hr, hbm]
          | some r =>
            cases dbOk <;> simp [captureAttendance, hb, hc, hr, hbm]

/-- Concrete evaluation of a successful capture action on the
two-candidate example, used to discharge the success hypothesis of the
frame-condition theorem. -/
theorem captureAttendance_accepted_example :
    captureAttendance initialSysState true 5000 1
      (Except.ok attendanceCandidates) true (3/5) =
      ({ lastRecognitionTime := 5000 }, CaptureResult.accepted candidate62,
        true) := by
  have h1 : ¬ ((5000:ℤ) - initialSysState.lastRecognitionTime <
      recognitionCooldown) := by
    simp [initialSysState, recognitionCooldown]
  have hlen : (attendanceCandidates.length == 0) = false := by
    simp [attendanceCandidates]
  simp [captureAttendance, h1, hlen, bestMatch_attendanceCandidates]

/-- Witness for `captureAttendance_lastSuccess`: a concrete accepted
capture sets the timestamp to `now`, and a concrete failed capture leaves
the state unchanged. -/
theorem captureAttendance_lastSuccess_witness :
    (captureAttendance initialSysState true 5000 1
      (Except.ok attendanceCandidates) true (3/5)).1.lastRecognitionTime =
      5000 ∧
    (captureAttendance initialSysState true 5000 0
      (Except.ok []) true (3/5)).1 = initialSysState := by
  constructor
  · exact ((captureAttendance_lastSuccess initialSysState true 5000 1
      (Except.ok attendanceCandidates) true (3/5)).1
      (by rw [captureAttendance_accepted_example])).1
  · exact (captureAttendance_lastSuccess initialSysState true 5000 0
      (Except.ok []) true (3/5)).2 (by rfl)

/-- Claim C8, counterexample: in an active enrollment session whose
sample list is already full (5 of 5), a capture with zero detections is
silently ignored by the early-return guard — it returns false and leaves
the list unchanged, but does not report "no face detected". -/
theorem captureEnrollmentSample_zero_counterexample :
    captureEnrollmentSample fullEnrollState [] =
      (fullEnrollState, CaptureSampleOutcome.ignored, false) ∧
    CaptureSampleOutcome.ignored ≠ CaptureSampleOutcome.noFaceDetected := by
  constructor
  · rfl
  · decide

/-- Claim C8, amended: for every enrollment state, a capture with zero
detections returns false and leaves the state (hence the sample list)
unchanged; the issue "no face detected" is reported exactly when the
session is actively enrolling with fewer than `requiredSamples` stored
samples — otherwise the call is silently ignored. -/
theorem captureEnrollmentSample_zero_detections (st : EnrollState) :
    captureEnrollmentSample st [] =
      (st,
        if st.isEnrolling ∧
            st.enrollmentSamples.length < st.requiredSamples then
          CaptureSampleOutcome.noFaceDetected
        else CaptureSampleOutcome.ignored,
        false) := by
  cases hE : st.isEnrolling with
  | false => simp [captureEnrollmentSample, hE]
  | true =>
    rcases lt_or_ge st.enrollmentSamples.length st.requiredSamples with
      hf | hf
    · have hnle := not_le.mpr hf
      simp [captureEnrollmentSample, hE, hf, hnle]
    · have hnf := not_lt.mpr hf
      simp [captureEnrollmentSample, hE, hf, hnf]

/-- Claim C9: completing an enrollment with fewer accepted samples than
the required count fails, reports the shortfall
`requiredSamples - enrollmentSamples.length`, returns false, creates no
user record, and leaves the state unchanged. -/
theorem completeEnrollment_insufficient (st : EnrollState) (emailDup : Bool)
    (h : st.enrollmentSamples.length < st.requiredSamples) :
    completeEnrollment st emailDup =
      (st, CompleteOutcome.insufficientSamples
        (st.requiredSamples - st.enrollmentSamples.length), false, false) := by
  simp [completeEnrollment, h]

/-- Witness for `completeEnrollment_insufficient`: 4 samples with
required = 5 fail with a shortfall of 1 and no user created. -/
theorem completeEnrollment_insufficient_witness :
    completeEnrollment fourSampleState false =
      (fourSampleState, CompleteOutcome.insufficientSamples 1,
        false, false) := by
  rw [completeEnrollment_insufficient fourSampleState false
    (by simp [fourSampleState])]
  simp [fourSampleState]

/-- Claim C10: the stored sample list never grows beyond
`requiredSamples`: a capture on a full list is silently ignored, a capture
on a within-bounds list stays within bounds (it appends at most one sample
and only when strictly below the bound), `requiredSamples` itself is never
changed by a capture, and starting or completing an enrollment never
enlarges the sample list. -/
theorem enrollmentSamples_bounded :
    (∀ st : EnrollState, ∀ detections : List Detection,
      st.enrollmentSamples.length ≤ st.requiredSamples →
      ((captureEnrollmentSample st detections).1).enrollmentSamples.length ≤
        st.requiredSamples) ∧
    (∀ st : EnrollState, ∀ detections : List Detection,
      st.requiredSamples ≤ st.enrollmentSamples.length →
      captureEnrollmentSample st detections =
        (st, CaptureSampleOutcome.ignored, false)) ∧
    (∀ st : EnrollState, ∀ detections : List Detection,
      ((captureEnrollmentSample st detections).1).requiredSamples =
        st.requiredSamples) ∧
    (∀ st : EnrollState, ∀ e f c : Bool,
      ((startEnrollment st e f c).1).enrollmentSamples.length ≤
        st.enrollmentSamples.length) ∧
    (∀ st : EnrollState, ∀ dup : Bool,
      ((completeEnrollment st dup).1).enrollmentSamples.length ≤
        st.enrollmentSamples.length) := by
  refine ⟨?_, ?_, ?_, ?_, ?_⟩
  · intro st detections h
    rcases lt_or_ge st.enrollmentSamples.length st.requiredSamples with
      hlt | hge
    · have hnle := not_le.mpr hlt
      cases hE : st.isEnrolling with
      | false =>
        simp [captureEnrollmentSample, hE]
        exact h
      | true =>
        cases detections with
        | nil =>
          simp [captureEnrollmentSample, hE, hnle]
          exact h
        | cons d rest =>
          cases rest with
          | nil =>
            by_cases hv : (validateEnrollmentQuality d).isValid
            · simp [captureEnrollmentSample, hE, hnle, hv]
              omega
            · simp [captureEnrollmentSample, hE, hnle, hv]
              exact h
          | cons d2 rest2 =>
            simp [captureEnrollmentSample, hE, hnle]
            exact h
    · simp [captureEnrollmentSample, hge]
      exact h
  · intro st detections h
    simp [captureEnrollmentSample, h]
  · intro st detections
    by_cases hcond : (!st.isEnrolling ||
        decide (st.requiredSamples ≤ st.enrollmentSamples.length)) = true
    · simp [captureEnrollmentSample, hcond]
    · cases detections with
      | nil => simp [captureEnrollmentSample, hcond]
      | cons d rest =>
        cases rest with
        | nil =>
          by_cases hv : (validateEnrollmentQuality d).isValid
          · simp [captureEnrollmentSample, hcond, hv]
          · simp [captureEnrollmentSample, hcond, hv]
        | cons d2 rest2 => simp [captureEnrollmentSample, hcond]
  · intro st e f c
    cases e <;> cases f <;> cases c <;> simp [startEnrollment]
  · intro st dup
    rcases lt_or_ge st.enrollmentSamples.length st.requiredSamples with
      hlt | hge
    · simp [completeEnrollment, hlt]
    · have hnlt := not_lt.mpr hge
      cases dup <;> simp [completeEnrollment, hnlt]

/-- Witness for `enrollmentSamples_bounded`: a full session ignores a
further capture, and a 4-of-5 session stays within the bound. -/
theorem enrollmentSamples_bounded_witness :
    captureEnrollmentSample fullEnrollState [bareDetection] =
      (fullEnrollState, CaptureSampleOutcome.ignored, false) ∧
    (captureEnrollmentSample fourSampleState
      []).1.enrollmentSamples.length ≤ fourSampleState.requiredSamples := by
  constructor
  · exact enrollmentSamples_bounded.2.1 fullEnrollState [bareDetection]
      (by simp [fullEnrollState])
  · exact enrollmentSamples_bounded.1 fourSampleState []
      (by simp [fourSampleState])

/-- Claim C7: with `MAX_ATTEMPTS = 3`, every attempt increments the
counter (kept after a non-final failure, reset by success or exhaustion);
the counter stays below 3 forever (so the attempt numbers shown are at
most 3); a call without a captured image performs no attempt at all, so
after exhaustion (which clears the image) a 4th attempt is impossible
without a new capture; a success resets the counter to 0; and in the
concrete fresh cycle three consecutive failures leave the counter at 1,
then 2 (image kept, not exhausted), and exactly the 3rd failure resets
the counter to 0 and clears the image. -/
theorem checkAttendance_retry_budget :
    (∀ s : RetryState, s.capturedImage = true →
      checkAttendance s true =
        { recognitionAttempts := 0, capturedImage := false }) ∧
    (∀ s : RetryState, ∀ b : Bool,
      s.recognitionAttempts < MAX_ATTEMPTS →
      (checkAttendance s b).recognitionAttempts < MAX_ATTEMPTS) ∧
    (∀ s : RetryState, ∀ b : Bool, s.capturedImage = false →
      checkAttendance s b = s) ∧
    (∀ s : RetryState, s.capturedImage = true →
      s.recognitionAttempts + 1 < MAX_ATTEMPTS →
      checkAttendance s false =
        { recognitionAttempts := s.recognitionAttempts + 1,
          capturedImage := true }) ∧
    ((checkAttendance (captureImage
        { recognitionAttempts := 0, capturedImage := false } true)
        false) = { recognitionAttempts := 1, capturedImage := true }) ∧
    ((checkAttendance (checkAttendance (captureImage
        { recognitionAttempts := 0, capturedImage := false } true) false)
        false) = { recognitionAttempts := 2, capturedImage := true }) ∧
    ((checkAttendance (checkAttendance (checkAttendance (captureImage
        { recognitionAttempts := 0, capturedImage := false } true) false)
        false) false) =
      { recognitionAttempts := 0, capturedImage := false }) := by
  refine ⟨?_, ?_, ?_, ?_, ?_, ?_, ?_⟩
  · intro s h
    simp [checkAttendance, h]
  · intro s b h
    cases hi : s.capturedImage with
    | false =>
      simp [checkAttendance, hi]
      exact h
    | true =>
      cases b with
      | true => simp [checkAttendance, hi, MAX_ATTEMPTS]
      | false =>
        by_cases h3 : MAX_ATTEMPTS ≤ s.recognitionAttempts + 1
        · simp only [MAX_ATTEMPTS] at h3
          have h4 : 2 ≤ s.recognitionAttempts := by omega
          simp [checkAttendance, hi, h4, MAX_ATTEMPTS]
        · simp [checkAttendance, hi, h3]
          simp only [MAX_ATTEMPTS] at h3 ⊢
          omega
  · intro s b h
    simp [checkAttendance, h]
  · intro s h h2
    have h3 : ¬ MAX_ATTEMPTS ≤ s.recognitionAttempts + 1 := not_le.mpr h2
    simp [checkAttendance, h, h3]
  · decide
  · decide
  · decide

/-- Witness for `checkAttendance_retry_budget`: a success with the
counter at 2 resets it, and the second failed attempt of a cycle stores
the incremented counter 2 with the image kept. -/
theorem checkAttendance_retry_budget_witness :
    checkAttendance { recognitionAttempts := 2, capturedImage := true }
      true = { recognitionAttempts := 0, capturedImage := false } ∧
    checkAttendance { recognitionAttempts := 1, capturedImage := true }
      false = { recognitionAttempts := 2, capturedImage := true } := by
  constructor
  · exact checkAttendance_retry_budget.1
      { recognitionAttempts := 2, capturedImage := true } rfl
  · exact checkAttendance_retry_budget.2.2.2.1
      { recognitionAttempts := 1, capturedImage := true } rfl (by decide)
